import Mathlib

/-!
Verification development for the authentication session lifecycle of the
tic-tac-toe game-catalog application (`src/contexts/AuthContext.tsx`).

The source is a React context provider around an external identity provider
and an entitlement store.  We embed it shallowly: each asynchronous handler in
the source becomes a pure Lean function from its external-call results and the
liveness-flag values observed at its resumption points to a state transformer
on `AuthState`.  The React `setX` calls inside one handler run on the single
event-loop thread, so a handler is one atomic transition on the exposed state.
-/

namespace AuthCtx

/-- A provider-issued user record (only the fields the source reads). -/
structure User where
  id : String
deriving Repr, DecidableEq

/-- A provider-issued session.  The source guards on `currentSession?.user`,
so the user slot is modelled as optional. -/
structure Session where
  user : Option User
deriving Repr, DecidableEq

/-- The provider-wide authentication state: the four `useState` cells of
`AuthProvider`. -/
structure AuthState where
  user : Option User
  session : Option Session
  isLoading : Bool
  isPremium : Bool
deriving Repr, DecidableEq

/-- The `useState` initial values: `null`, `null`, `true`, `false`. -/
def initialState : AuthState :=
  { user := none, session := none, isLoading := true, isPremium := false }

/-- One row of the `subscriptions` table; the `is_premium` column may be null. -/
structure SubscriptionRow where
  is_premium : Option Bool
deriving Repr, DecidableEq

/-- An error value raised by the identity provider; the source only reads
`error.message`. -/
structure ProviderError where
  message : String
deriving Repr, DecidableEq

/-- A notification emitted through the `toast` sink. -/
structure Toast where
  title : String
  description : String
  destructive : Bool
deriving Repr, DecidableEq

/-- `fetchPremiumStatus` (source lines 31-45): awaits the subscriptions
lookup, and if still mounted writes `data?.is_premium || false`; any thrown
error is logged and swallowed.  `mounted` is the liveness flag when the
lookup settles; `result` is the settled lookup (`.error` = the await threw,
`.ok none` = no row / null data). -/
def fetchPremiumStatus (mounted : Bool) (result : Except String (Option SubscriptionRow))
    (s : AuthState) : AuthState :=
  match result with
  | .ok data =>
      if mounted then
        { s with isPremium := (data.bind SubscriptionRow.is_premium).getD false }
      else s
  | .error _ => s

/-- `checkSession` (source lines 48-67): awaits `getSession`, returns early if
unmounted, writes session and user when a user-bearing session came back and
then awaits the premium fetch; the `finally` clears `isLoading` when still
mounted.  `m1` is the liveness flag after the `getSession` await, `m2` after
the premium-fetch await (the flag is monotone: only unmount clears it). -/
def checkSession (m1 m2 : Bool) (res : Except String (Option Session))
    (prem : Except String (Option SubscriptionRow)) (s : AuthState) : AuthState :=
  match res with
  | .error _ =>
      -- the catch logs; the finally still runs with the flag at `m1`
      if m1 then { s with isLoading := false } else s
  | .ok currentSession =>
      if m1 = false then s
      else
        match currentSession with
        | some cs =>
            match cs.user with
            | some u =>
                let s1 := { s with session := some cs, user := some u }
                let s2 := fetchPremiumStatus m2 prem s1
                if m2 then { s2 with isLoading := false } else s2
            | none => if m1 then { s with isLoading := false } else s
        | none => if m1 then { s with isLoading := false } else s

/-- The `onAuthStateChange` handler (source lines 70-91): returns early if
unmounted; a user-bearing session writes session/user and refreshes the
premium flag, otherwise session, user and premium flag are cleared; then
`isLoading` is cleared when still mounted.  `m1` is the liveness flag when the
handler starts, `m2` after the premium-fetch await. -/
def onAuthChange (m1 m2 : Bool) (currentSession : Option Session)
    (prem : Except String (Option SubscriptionRow)) (s : AuthState) : AuthState :=
  if m1 = false then s
  else
    match currentSession with
    | some cs =>
        match cs.user with
        | some u =>
            let s1 := { s with session := some cs, user := some u }
            let s2 := fetchPremiumStatus m2 prem s1
            if m2 then { s2 with isLoading := false } else s2
        | none =>
            let s1 := { s with session := none, user := none, isPremium := false }
            if m1 then { s1 with isLoading := false } else s1
    | none =>
        let s1 := { s with session := none, user := none, isPremium := false }
        if m1 then { s1 with isLoading := false } else s1

/-- The safety-timeout callback (source lines 105-113): after 5 seconds it
unconditionally clears `isLoading`, `user` and `session`.  It consults no
flag and no current state (the effect closes over the initial render), and it
does not touch `isPremium`. -/
def loadingTimeout (s : AuthState) : AuthState :=
  { s with isLoading := false, user := none, session := none }

/-- The continuation of `signIn` after the `signInWithPassword` await (source
lines 121-140): on a provider error the catch emits a destructive toast with
the provider message and re-throws; on success an affirmative toast; the
`finally` always clears `isLoading`.  The source never consults the liveness
flag here (`mounted` is not in scope in `signIn`); the `mounted2` parameter
records the flag value at resumption and is deliberately unread. -/
def signInAfterAwait (_mounted2 : Bool) (providerError : Option ProviderError)
    (s : AuthState) : AuthState × List Toast × Option ProviderError :=
  match providerError with
  | none =>
      ({ s with isLoading := false },
       [{ title := "Welcome back!",
          description := "You have successfully signed in.", destructive := false }],
       none)
  | some e =>
      ({ s with isLoading := false },
       [{ title := "Sign in failed", description := e.message, destructive := true }],
       some e)

/-- `signIn` (source lines 118-141): sets `isLoading := true`, awaits the
provider, then runs the continuation.  The third component is the failure
re-raised to the caller (`none` = the returned promise resolves). -/
def signIn (mounted2 : Bool) (providerError : Option ProviderError)
    (s : AuthState) : AuthState × List Toast × Option ProviderError :=
  signInAfterAwait mounted2 providerError { s with isLoading := true }

/-- The continuation of `signUp` after the provider await (source lines
146-171); same contract as `signInAfterAwait`, with the sign-up toasts. -/
def signUpAfterAwait (_mounted2 : Bool) (providerError : Option ProviderError)
    (s : AuthState) : AuthState × List Toast × Option ProviderError :=
  match providerError with
  | none =>
      ({ s with isLoading := false },
       [{ title := "Account created!",
          description := "You have successfully signed up. Welcome!", destructive := false }],
       none)
  | some e =>
      ({ s with isLoading := false },
       [{ title := "Sign up failed", description := e.message, destructive := true }],
       some e)

/-- `signUp` (source lines 143-172). -/
def signUp (mounted2 : Bool) (providerError : Option ProviderError)
    (s : AuthState) : AuthState × List Toast × Option ProviderError :=
  signUpAfterAwait mounted2 providerError { s with isLoading := true }

/-- The continuation of `signOut` after the provider await (source lines
177-190): on error a destructive toast and NO re-raise; on success an
affirmative toast; the `finally` clears `isLoading`.  As in `signIn`, the
liveness flag is not consulted. -/
def signOutAfterAwait (_mounted2 : Bool) (providerError : Option ProviderError)
    (s : AuthState) : AuthState × List Toast × Option ProviderError :=
  match providerError with
  | none =>
      ({ s with isLoading := false },
       [{ title := "Signed out",
          description := "You have been successfully signed out.", destructive := false }],
       none)
  | some e =>
      ({ s with isLoading := false },
       [{ title := "Sign out failed", description := e.message, destructive := true }],
       none)

/-- `signOut` (source lines 174-191). -/
def signOut (mounted2 : Bool) (providerError : Option ProviderError)
    (s : AuthState) : AuthState × List Toast × Option ProviderError :=
  signOutAfterAwait mounted2 providerError { s with isLoading := true }

/-- `useAuth` (source lines 210-216): outside the provider scope the context
is `undefined` and a programming error is thrown; inside, the full context
value is returned. -/
def useAuth (ctx : Option AuthState) : Except String AuthState :=
  match ctx with
  | none => Except.error "useAuth must be used within an AuthProvider"
  | some c => Except.ok c

/-- One occurrence that writes `AuthState`: the resolution of the initial
session query, a change-event, the safety-timeout firing, or a sign
operation completing.  Each carries the liveness-flag values at its
resumption points and its settled external results. -/
inductive AuthEvent where
  | initialQuery (m1 m2 : Bool) (res : Except String (Option Session))
      (prem : Except String (Option SubscriptionRow))
  | changeEvent (m1 m2 : Bool) (cs : Option Session)
      (prem : Except String (Option SubscriptionRow))
  | timeoutFired
  | signInCall (m2 : Bool) (pe : Option ProviderError)
  | signUpCall (m2 : Bool) (pe : Option ProviderError)
  | signOutCall (m2 : Bool) (pe : Option ProviderError)
deriving Repr

/-- The state transition performed by one event. -/
def step (e : AuthEvent) (s : AuthState) : AuthState :=
  match e with
  | .initialQuery m1 m2 res prem => checkSession m1 m2 res prem s
  | .changeEvent m1 m2 cs prem => onAuthChange m1 m2 cs prem s
  | .timeoutFired => loadingTimeout s
  | .signInCall m2 pe => (signIn m2 pe s).1
  | .signUpCall m2 pe => (signUp m2 pe s).1
  | .signOutCall m2 pe => (signOut m2 pe s).1

/-- The state after a sequence of events, starting from a given state. -/
def runEvents (es : List AuthEvent) (s : AuthState) : AuthState :=
  es.foldl (fun s e => step e s) s

/-- `user` and `session` are both present or both absent. -/
def bothOrNeither (s : AuthState) : Prop :=
  s.user.isSome = s.session.isSome

/-- The premium fetch never touches `user`. -/
theorem fetchPremiumStatus_user (m : Bool) (r : Except String (Option SubscriptionRow))
    (s : AuthState) : (fetchPremiumStatus m r s).user = s.user := by
  unfold fetchPremiumStatus
  rcases r with _ | d
  · rfl
  · split_ifs <;> rfl

/-- The premium fetch never touches `session`. -/
theorem fetchPremiumStatus_session (m : Bool) (r : Except String (Option SubscriptionRow))
    (s : AuthState) : (fetchPremiumStatus m r s).session = s.session := by
  unfold fetchPremiumStatus
  rcases r with _ | d
  · rfl
  · split_ifs <;> rfl

/-- The state component of `signIn` only clears `isLoading`. -/
theorem signIn_state (m2 : Bool) (pe : Option ProviderError) (s : AuthState) :
    (signIn m2 pe s).1 = { s with isLoading := false } := by
  cases pe <;> rfl

/-- The state component of `signUp` only clears `isLoading`. -/
theorem signUp_state (m2 : Bool) (pe : Option ProviderError) (s : AuthState) :
    (signUp m2 pe s).1 = { s with isLoading := false } := by
  cases pe <;> rfl

/-- The state component of `signOut` only clears `isLoading`. -/
theorem signOut_state (m2 : Bool) (pe : Option ProviderError) (s : AuthState) :
    (signOut m2 pe s).1 = { s with isLoading := false } := by
  cases pe <;> rfl

/-- `checkSession` preserves the user/session pairing invariant. -/
theorem checkSession_bothOrNeither (m1 m2 : Bool) (res : Except String (Option Session))
    (prem : Except String (Option SubscriptionRow)) (s : AuthState)
    (h : bothOrNeither s) : bothOrNeither (checkSession m1 m2 res prem s) := by
  unfold bothOrNeither at h ⊢
  rcases res with msg | cur
  · simp only [checkSession]
    split_ifs <;> simp [h]
  · rcases cur with _ | cs
    · simp only [checkSession]
      split_ifs <;> simp [h]
    · rcases hcu : cs.user with _ | u
      · simp only [checkSession, hcu]
        split_ifs <;> simp [h]
      · simp only [checkSession, hcu]
        split_ifs <;>
          simp [h, fetchPremiumStatus_user, fetchPremiumStatus_session]

/-- The change-event handler preserves the user/session pairing invariant. -/
theorem onAuthChange_bothOrNeither (m1 m2 : Bool) (cs : Option Session)
    (prem : Except String (Option SubscriptionRow)) (s : AuthState)
    (h : bothOrNeither s) : bothOrNeither (onAuthChange m1 m2 cs prem s) := by
  unfold bothOrNeither at h ⊢
  rcases cs with _ | c
  · simp only [onAuthChange]
    split_ifs <;> simp [h]
  · rcases hcu : c.user with _ | u
    · simp only [onAuthChange, hcu]
      split_ifs <;> simp [h]
    · simp only [onAuthChange, hcu]
      split_ifs <;>
        simp [h, fetchPremiumStatus_user, fetchPremiumStatus_session]

/-- Every single transition preserves the user/session pairing invariant. -/
theorem step_bothOrNeither (e : AuthEvent) (s : AuthState)
    (h : bothOrNeither s) : bothOrNeither (step e s) := by
  cases e with
  | initialQuery m1 m2 res prem => exact checkSession_bothOrNeither m1 m2 res prem s h
  | changeEvent m1 m2 cs prem => exact onAuthChange_bothOrNeither m1 m2 cs prem s h
  | timeoutFired => simp [step, loadingTimeout, bothOrNeither]
  | signInCall m2 pe =>
      unfold bothOrNeither at h ⊢
      simp only [step, signIn_state]
      exact h
  | signUpCall m2 pe =>
      unfold bothOrNeither at h ⊢
      simp only [step, signUp_state]
      exact h
  | signOutCall m2 pe =>
      unfold bothOrNeither at h ⊢
      simp only [step, signOut_state]
      exact h

/-- The invariant holds along any run from a pairing-consistent state. -/
theorem runEvents_bothOrNeither (es : List AuthEvent) (s : AuthState)
    (h : bothOrNeither s) : bothOrNeither (runEvents es s) := by
  induction es generalizing s with
  | nil => exact h
  | cons e es ih => exact ih (step e s) (step_bothOrNeither e s h)

/-- C1: for every sequence of initial-session-query results, change-events,
safety-timeout firings and sign-operation completions, after each state write
the exposed `user` and `session` are both present or both absent. -/
theorem C1_user_session_paired (es : List AuthEvent) :
    bothOrNeither (runEvents es initialState) :=
  runEvents_bothOrNeither es initialState rfl

/-- A concrete user for counterexample runs. -/
def uA : User := { id := "user-a" }

/-- A session carrying `uA`. -/
def sessA : Session := { user := some uA }

/-- A second concrete user. -/
def uB : User := { id := "user-b" }

/-- A session carrying `uB`. -/
def sessB : Session := { user := some uB }

/-- A subscriptions row with `is_premium = true`. -/
def premRowTrue : SubscriptionRow := { is_premium := some true }

/-- The state after a user-bearing change-event resolved (with a premium
entitlement) well before the 5-second mark: authenticated, not loading. -/
def authedBeforeTimeout : AuthState :=
  runEvents [AuthEvent.changeEvent true true (some sessA) (Except.ok (some premRowTrue))]
    initialState

/-- C2: the timeout callback clears `user` and `session` unconditionally.  In
the state reached by a change-event that resolved before the 5-second mark
(authenticated, `isLoading` already false), firing the timer still clears the
established authenticated state, although the callback's own comment says it
should only force the signed-out state when user data is still absent. -/
theorem C2_timeout_clears_established_auth :
    authedBeforeTimeout.user = some uA ∧
    authedBeforeTimeout.session = some sessA ∧
    authedBeforeTimeout.isLoading = false ∧
    (loadingTimeout authedBeforeTimeout).user = none ∧
    (loadingTimeout authedBeforeTimeout).session = none := by
  decide

/-- The state reached by: a change-event establishes an authenticated premium
user before the 5-second mark, then the safety timer fires. -/
def staleTimeoutState : AuthState :=
  runEvents [AuthEvent.changeEvent true true (some sessA) (Except.ok (some premRowTrue)),
             AuthEvent.timeoutFired]
    initialState

/-- C3 counterexample: a reachable state in which `user` is absent while
`isPremium` is still true — the timeout path clears `user` and `session` but
does not reset `isPremium`, contradicting the claim that every path clearing
`user` resets `isPremium` in the same transition. -/
theorem C3_counterexample :
    staleTimeoutState.user = none ∧ staleTimeoutState.session = none ∧
    staleTimeoutState.isPremium = true := by
  decide

/-- C3 amended: a change-event whose session carries no user resets
`isPremium` to false in the same transition that clears `user` and `session`;
the safety-timeout path, by contrast, leaves `isPremium` unchanged while
clearing `user` and `session`. -/
theorem C3_clear_paths (m2 : Bool) (cs : Option Session)
    (prem : Except String (Option SubscriptionRow)) (s : AuthState)
    (hcs : cs.bind Session.user = none) :
    (onAuthChange true m2 cs prem s).isPremium = false ∧
    (onAuthChange true m2 cs prem s).user = none ∧
    (onAuthChange true m2 cs prem s).session = none ∧
    (loadingTimeout s).isPremium = s.isPremium ∧
    (loadingTimeout s).user = none ∧ (loadingTimeout s).session = none := by
  rcases cs with _ | c
  · exact ⟨rfl, rfl, rfl, rfl, rfl, rfl⟩
  · have hu : c.user = none := by simpa using hcs
    simp [onAuthChange, hu, loadingTimeout]

/-- Witness for `C3_clear_paths` at a concrete no-session event. -/
theorem C3_clear_paths_witness :
    (onAuthChange true true none (Except.ok none) initialState).isPremium = false ∧
    (onAuthChange true true none (Except.ok none) initialState).user = none ∧
    (onAuthChange true true none (Except.ok none) initialState).session = none ∧
    (loadingTimeout initialState).isPremium = initialState.isPremium ∧
    (loadingTimeout initialState).user = none ∧
    (loadingTimeout initialState).session = none :=
  C3_clear_paths true none (Except.ok none) initialState rfl

/-- C4: when the provider rejects the credentials, `signIn` emits exactly one
destructive toast carrying the provider's message, re-raises the failure to
the caller, and leaves `isLoading` false; on provider success it emits one
affirmative toast, raises nothing, and also leaves `isLoading` false. -/
theorem C4_signIn_contract (m2 : Bool) (e : ProviderError) (s : AuthState) :
    (signIn m2 (some e) s).2.1 =
      [{ title := "Sign in failed", description := e.message, destructive := true }] ∧
    (signIn m2 (some e) s).2.2 = some e ∧
    (signIn m2 (some e) s).1.isLoading = false ∧
    (∃ t, (signIn m2 none s).2.1 = [t] ∧ t.destructive = false) ∧
    (signIn m2 none s).2.2 = none ∧
    (signIn m2 none s).1.isLoading = false :=
  ⟨rfl, rfl, rfl, ⟨_, rfl, rfl⟩, rfl, rfl⟩

/-- C5: when the provider's sign-out reports an error, `signOut` emits a
destructive toast but re-raises nothing (the raised component is `none` in
every case, so the returned promise never rejects); on success it emits an
affirmative toast. -/
theorem C5_signOut_contract (m2 : Bool) (e : ProviderError) (s : AuthState) :
    (signOut m2 (some e) s).2.1 =
      [{ title := "Sign out failed", description := e.message, destructive := true }] ∧
    (signOut m2 (some e) s).2.2 = none ∧
    (∃ t, (signOut m2 none s).2.1 = [t] ∧ t.destructive = false) ∧
    (signOut m2 none s).2.2 = none :=
  ⟨rfl, rfl, ⟨_, rfl, rfl⟩, rfl⟩

/-- C6 counterexample: the `signIn` continuation, resumed with the liveness
flag already false (component torn down), still writes state — it clears
`isLoading` — so not every asynchronous continuation checks the flag before
writing. -/
theorem C6_counterexample :
    (signInAfterAwait false none
        { user := none, session := none, isLoading := true, isPremium := false }).1 ≠
      { user := none, session := none, isLoading := true, isPremium := false } := by
  decide

/-- C6 amended: the initial-session-fetch, entitlement-fetch and change-event
continuations do check the liveness flag and perform no state write once it is
false; the `signIn`/`signUp`/`signOut` continuations never consult the flag
(it is scoped to the subscription effect) and always write `isLoading`. -/
theorem C6_guarded_continuations (m2 : Bool) (res : Except String (Option Session))
    (cs : Option Session) (prem : Except String (Option SubscriptionRow))
    (s : AuthState) :
    fetchPremiumStatus false prem s = s ∧
    checkSession false m2 res prem s = s ∧
    onAuthChange false m2 cs prem s = s ∧
    (signInAfterAwait false none { s with isLoading := true }).1.isLoading = false ∧
    (signUpAfterAwait false none { s with isLoading := true }).1.isLoading = false ∧
    (signOutAfterAwait false none { s with isLoading := true }).1.isLoading = false := by
  refine ⟨?_, ?_, rfl, rfl, rfl, rfl⟩
  · unfold fetchPremiumStatus
    rcases prem with _ | d <;> rfl
  · unfold checkSession
    rcases res with _ | cur <;> rfl

/-- C7: none of `signIn`, `signUp`, `signOut` writes `user`, `session` or
`isPremium`: in every execution, success or failure, the three fields are
unchanged by the operation itself. -/
theorem C7_ops_frame (m2 : Bool) (pe : Option ProviderError) (s : AuthState) :
    (signIn m2 pe s).1.user = s.user ∧
    (signIn m2 pe s).1.session = s.session ∧
    (signIn m2 pe s).1.isPremium = s.isPremium ∧
    (signUp m2 pe s).1.user = s.user ∧
    (signUp m2 pe s).1.session = s.session ∧
    (signUp m2 pe s).1.isPremium = s.isPremium ∧
    (signOut m2 pe s).1.user = s.user ∧
    (signOut m2 pe s).1.session = s.session ∧
    (signOut m2 pe s).1.isPremium = s.isPremium := by
  simp [signIn_state, signUp_state, signOut_state]

/-- The state reached by: user `uA` authenticates with a premium entitlement,
then a change-event for user `uB` arrives whose entitlement lookup throws. -/
def failedRefetchState : AuthState :=
  runEvents [AuthEvent.changeEvent true true (some sessA) (Except.ok (some premRowTrue)),
             AuthEvent.changeEvent true true (some sessB) (Except.error "network failure")]
    initialState

/-- C8 counterexample: after the entitlement fetch for `uB` fails, `isPremium`
is still true (the stale value fetched for `uA`), not false as the claim
requires for a fetch failure. -/
theorem C8_counterexample :
    failedRefetchState.user = some uB ∧ failedRefetchState.isPremium = true := by
  decide

/-- C8 amended: after a successful entitlement fetch, `isPremium` is true iff
the store returned a row whose flag is true; an absent row (or a null flag)
yields false; a fetch failure is logged only and leaves the whole state — in
particular the prior `isPremium` — unchanged, and no error propagates (the
handler is total). -/
theorem C8_premium_fetch (m : Bool) (row : SubscriptionRow) (msg : String)
    (s : AuthState) :
    ((fetchPremiumStatus true (Except.ok (some row)) s).isPremium = true ↔
      row.is_premium = some true) ∧
    (fetchPremiumStatus true (Except.ok none) s).isPremium = false ∧
    fetchPremiumStatus m (Except.error msg) s = s := by
  refine ⟨?_, rfl, ?_⟩
  · rcases hb : row.is_premium with _ | b
    · simp [fetchPremiumStatus, hb]
    · rcases b <;> simp [fetchPremiumStatus, hb]
  · unfold fetchPremiumStatus
    rfl

/-- C9: calling `useAuth` outside the provider scope (context `undefined`)
raises the programming error rather than returning a value; inside the scope
it returns the full exposed context unchanged. -/
theorem C9_useAuth_access (c : AuthState) :
    useAuth none = Except.error "useAuth must be used within an AuthProvider" ∧
    useAuth (some c) = Except.ok c :=
  ⟨rfl, rfl⟩

/-- C10: when the initial session query resolves with no session, the handler
leaves `user`, `session` and `isPremium` at their prior values and (while
mounted) only clears `isLoading`; moreover, for every possible query result
the initial-query path never clears a present `user` — the resulting `user`
is either unchanged or present. -/
theorem C10_initial_query_frame (m1 m2 : Bool) (res : Except String (Option Session))
    (prem : Except String (Option SubscriptionRow)) (s : AuthState) :
    (checkSession m1 m2 (Except.ok none) prem s).user = s.user ∧
    (checkSession m1 m2 (Except.ok none) prem s).session = s.session ∧
    (checkSession m1 m2 (Except.ok none) prem s).isPremium = s.isPremium ∧
    (checkSession true m2 (Except.ok none) prem s).isLoading = false ∧
    ((checkSession m1 m2 res prem s).user = s.user ∨
      ((checkSession m1 m2 res prem s).user).isSome = true) := by
  refine ⟨?_, ?_, ?_, rfl, ?_⟩
  · simp only [checkSession]
    split_ifs <;> rfl
  · simp only [checkSession]
    split_ifs <;> rfl
  · simp only [checkSession]
    split_ifs <;> rfl
  · rcases res with msg | cur
    · simp only [checkSession]
      split_ifs <;> exact Or.inl rfl
    · rcases cur with _ | cs
      · simp only [checkSession]
        split_ifs <;> exact Or.inl rfl
      · rcases hcu : cs.user with _ | u
        · simp only [checkSession, hcu]
          split_ifs <;> exact Or.inl rfl
        · simp only [checkSession, hcu]
          split_ifs <;> simp [fetchPremiumStatus_user]

end AuthCtx
